import Mathlib

/-!
Verification development for the facebook_api_wrapper repository
(src/facebook_api_wrapper.py).

Shallow embedding conventions:
* Python dictionaries / JSON payloads are modelled by the inductive `FbVal`
  (association lists preserve Python dict insertion order: a new key is
  appended, an existing key is updated in place).
* Python exceptions relevant to the code paths under study are modelled by
  `PyErr`; fallible code returns `Except PyErr _`.  `try/except KeyError`
  blocks catch exactly `.keyError` and let every other error propagate,
  matching the source.
* Timestamps are modelled as integers (`FbVal.num`): `pd.to_datetime`
  followed by `replace(tzinfo=None)` and the `add_timezone` helper are
  order-preserving canonicalisations, kept abstract as the identity on the
  carried value; all comparisons in the source become integer comparisons.
* The remote HTTP/SDK side is a function argument: `initCall` maps an
  entity id to the first connection obtained for it (the result of the
  governor-wrapped initial call), `remote` maps a paging URL to the JSON
  payload `requests.get(url).json()` returns for it (the remote is
  deterministic per URL, so every retry of the same call sees the same
  payload).
* The unbounded `while` loops of the two nested `paginate_elements`
  closures receive a fuel parameter; running out of fuel yields the marker
  error `.nonTermination` (never produced by the loops' own code paths).
-/

namespace FbWrap

/-- Python/JSON values as passed around by the wrapper. -/
inductive FbVal where
  | null
  | num (n : Int)
  | str (s : String)
  | arr (elems : List FbVal)
  | obj (fields : List (String × FbVal))

/-- Python exceptions arising on the modelled code paths, plus the
`nonTermination` fuel marker. -/
inductive PyErr where
  | keyError
  | typeError
  | attributeError
  | indexError
  | nonTermination

/-- Dict lookup on an association list (first binding wins, as in a dict). -/
def lookupK : List (String × FbVal) → String → Option FbVal
  | [], _ => none
  | (k', v) :: rest, k => if k' = k then some v else lookupK rest k

/-- Dict update: existing key updated in place, new key appended at the end
(Python dict insertion-order semantics). -/
def setK : List (String × FbVal) → String → FbVal → List (String × FbVal)
  | [], k, v => [(k, v)]
  | (k', v') :: rest, k, v =>
      if k' = k then (k, v) :: rest else (k', v') :: setK rest k v

/-- Python `x[k]` for a string key: `KeyError` when the key is absent from a
dict, `TypeError` when `x` is not a dict. -/
def getItem : FbVal → String → Except PyErr FbVal
  | .obj fields, k =>
      match lookupK fields k with
      | some v => .ok v
      | none => .error .keyError
  | _, _ => .error .typeError

/-- Python `x[k] = v` on a dict; `TypeError` otherwise. -/
def setItem : FbVal → String → FbVal → Except PyErr FbVal
  | .obj fields, k, v => .ok (.obj (setK fields k v))
  | _, _, _ => .error .typeError

/-- Python `k in x` for a string `k`: key test on a dict, membership test on
a list, `False` on the other values reached by this code. -/
def pyIn (k : String) : FbVal → Bool
  | .obj fields => fields.any (fun kv => kv.1 = k)
  | .arr elems => elems.any (fun e => match e with | .str s => s = k | _ => false)
  | _ => false

/-- Model of a `try: c except KeyError: fallback` expression. -/
def catchKey (c fallback : Except PyErr FbVal) : Except PyErr FbVal :=
  match c with
  | .error .keyError => fallback
  | r => r

/-- Two-level dict access `post[k1][k2]`. -/
def dictGet2 (post : FbVal) (k1 k2 : String) : Except PyErr FbVal := do
  let a ← getItem post k1
  getItem a k2

/-- Three-level dict access `post[k1][k2][k3]`. -/
def dictGet3 (post : FbVal) (k1 k2 k3 : String) : Except PyErr FbVal := do
  let a ← getItem post k1
  let b ← getItem a k2
  getItem b k3

/-- Model of `post.get("shares", {}).get("count", 0)` (line 528): a missing
key yields the default, a non-dict `shares` value makes the second `.get`
raise `AttributeError` (which the surrounding `except KeyError` does not
catch). -/
def sharesGet (post : FbVal) : Except PyErr FbVal :=
  match post with
  | .obj fields =>
      match lookupK fields "shares" with
      | none => .ok (.num 0)
      | some (.obj sf) => .ok ((lookupK sf "count").getD (.num 0))
      | some _ => .error .attributeError
  | _ => .error .typeError

/-- Model of `"https://facebook.com/{post_id}".format(post_id=post["id"])`:
string formatting of the id value (ids reaching this code are strings or
numbers). -/
def fmtId : FbVal → String
  | .str s => s
  | .num n => toString n
  | _ => ""

/-- Timestamp canonicalisation `pd.to_datetime(...)` (and the subsequent
`replace(tzinfo=None)`): kept abstract as the identity on the carried value
(timestamps are modelled as integers throughout, see header). -/
def pd_to_datetime (v : FbVal) : FbVal := v

/-- One step of the `interactions` sum (lines 540-542): `None` entries are
filtered out, integer counters are added, anything else would make Python's
`sum` raise `TypeError`. -/
def addCount (acc : Except PyErr Int) (v : FbVal) : Except PyErr Int := do
  let a ← acc
  match v with
  | .null => pure a
  | .num n => pure (a + n)
  | _ => .error .typeError

/-- Body of `post_with_additional_collumns` (lines 495-546) for a non-empty
post.  The Python mutates `post` in place, one field at a time; every key it
reads (`comments`, `from`, `created_time`, `likes`, `like_count`,
`reactions`, `shares`, `id`) is read before any assignment to that key, and
no derived field's source path involves a derived key, so computing all
values from the source record and then applying the assignments in source
order is equivalent. -/
def post_columns_core (i post : FbVal) : Except PyErr FbVal := do
  let comments_count ← catchKey (dictGet3 post "comments" "summary" "total_count") (.ok .null)
  let from_id ← catchKey (dictGet2 post "from" "id") (.ok .null)
  let from_name ← catchKey (dictGet2 post "from" "name") (.ok .null)
  let created_raw ← getItem post "created_time"
  let created_time := pd_to_datetime created_raw
  let likes_count ← catchKey (dictGet3 post "likes" "summary" "total_count")
      (catchKey (getItem post "like_count") (.ok .null))
  let reactions_count ← catchKey (dictGet3 post "reactions" "summary" "total_count") (.ok .null)
  let shares_count ← sharesGet post
  let pid ← getItem post "id"
  let post_link := FbVal.str ("https://facebook.com/" ++ fmtId pid)
  let inter ← addCount (addCount (addCount (.ok 0) comments_count) reactions_count) shares_count
  let p ← setItem post "comments_count" comments_count
  let p ← setItem p "from_id" from_id
  let p ← setItem p "from_name" from_name
  let p ← setItem p "created_time" created_time
  let p ← setItem p "likes_count" likes_count
  let p ← setItem p "reactions_count" reactions_count
  let p ← setItem p "shares_count" shares_count
  let p ← setItem p "post_link" post_link
  let p ← setItem p "interactions" (.num inter)
  setItem p "api_call_id" i

/-- `post_with_additional_collumns` (lines 492-546): `post == []` short
circuits to `[]`, every other post goes through the field derivation. -/
def post_with_additional_collumns (i post : FbVal) : Except PyErr FbVal :=
  match post with
  | .arr [] => .ok (.arr [])
  | _ => post_columns_core i post

/-- `transform_posts` (line 547): the list comprehension
`[post_with_additional_collumns(post) for post in posts]`; an exception in
any element aborts the whole comprehension. -/
def transform_posts (posts : List FbVal) (i : FbVal) : Except PyErr (List FbVal) :=
  match posts with
  | [] => .ok []
  | p :: rest => do
      let r ← post_with_additional_collumns i p
      let rs ← transform_posts rest i
      pure (r :: rs)

/-- `transform_comments` (lines 549-568): stamps `api_call_id = i` on every
comment dict. -/
def transform_comments (comments : List FbVal) (i : FbVal) : Except PyErr (List FbVal) :=
  match comments with
  | [] => .ok []
  | c :: rest => do
      let r ← setItem c "api_call_id" i
      let rs ← transform_comments rest i
      pure (r :: rs)

/-- `returns_data` (lines 455-459): `connection["data"] != []`, with
`KeyError`/`TypeError` caught and turned into `False`. -/
def returns_data (connection : FbVal) : Bool :=
  match getItem connection "data" with
  | .ok (.arr []) => false
  | .ok _ => true
  | .error _ => false

/-- `connection_data` (lines 461-462): `connection["data"]`. -/
def connection_data (connection : FbVal) : Except PyErr FbVal :=
  getItem connection "data"

/-- The `data` payload as the list `elements.extend(...)` iterates over
(the code only ever extends with list payloads). -/
def asData (connection : FbVal) : Except PyErr (List FbVal) :=
  match connection_data connection with
  | .ok (.arr l) => .ok l
  | .ok _ => .error .typeError
  | .error e => .error e

/-- Timestamp of a normalized row, when it carries an integer
`created_time` (see the timestamp convention in the header). -/
def rowTime (r : FbVal) : Option Int :=
  match getItem r "created_time" with
  | .ok (.num t) => some t
  | _ => none

/-- Number of records on a connection's `data` page. -/
def dataLen (v : FbVal) : Nat :=
  match getItem v "data" with
  | .ok (.arr l) => l.length
  | _ => 0

/-- Final time-range pass of `profiles_posts` (lines 308-316):
`df.loc[(df.created_time >= since) & (df.created_time <= until)]`, run only
on a non-empty frame.  A row whose `created_time` is missing compares as
`NaT`, i.e. both comparisons are false and the row is dropped; when no row
at all carries the column, the `AttributeError` branch logs a warning and
leaves the frame unfiltered. -/
def time_filter (since untilT : Int) (rows : List FbVal) : List FbVal :=
  if 0 < rows.length then
    if rows.any (fun r => (rowTime r).isSome) then
      rows.filter (fun r =>
        match rowTime r with
        | some t => decide (since ≤ t) && decide (t ≤ untilT)
        | none => false)
    else rows
  else rows

/-! ## Retry governors (lines 363-453) -/

/-- `max_wait = 7200` (line 374/419). -/
def max_wait : Nat := 7200

/-- `wait = 900` (line 375/420). -/
def wait : Nat := 900

/-- `max_tries = max_wait // wait` (line 377/422). -/
def max_tries : Nat := max_wait / wait

/-- Outcome of one attempt of an SDK-wrapped call: a return value, or a
raised `facebook.GraphAPIError` carrying an error code. -/
inductive SdkOutcome where
  | success (v : FbVal)
  | graphError (code : Int)

/-- The `while tries <= max_tries` loop of `rate_limit_sdk` (lines
380-398).  `outcomes k` is what the `k`-th call of `func` does (0-based);
the fuel argument counts the loop iterations still admitted
(`max_tries + 1 - tries`); the second and third components record the
number of attempts performed and the sleeps issued, in order. -/
def sdkLoop (outcomes : Nat → SdkOutcome) : Nat → Nat → List Nat → FbVal × Nat × List Nat
  | 0, attempts, sleeps => (.arr [], attempts, sleeps)
  | fuel + 1, attempts, sleeps =>
      match outcomes attempts with
      | .success v => (v, attempts + 1, sleeps)
      | .graphError code =>
          if code = 4 then sdkLoop outcomes fuel (attempts + 1) (sleeps ++ [wait])
          else (.arr [], attempts + 1, sleeps)

/-- `rate_limit_sdk` applied to a call whose `k`-th attempt behaves as
`outcomes k`: result value, attempts performed, sleeps issued. -/
def rate_limit_sdk_run (outcomes : Nat → SdkOutcome) : FbVal × Nat × List Nat :=
  sdkLoop outcomes (max_tries + 1) 0 []

/-- `connection["error"]["code"]` (line 428). -/
def conn_error_code (connection : FbVal) : Except PyErr FbVal := do
  let err ← getItem connection "error"
  getItem err "code"

/-- The `while tries <= max_tries` loop of `rate_limit_requests` (lines
425-445).  `outcomes k` is the payload the `k`-th call of `func` returns;
an exception raised while reading the in-band error code propagates out of
the wrapper. -/
def reqLoop (outcomes : Nat → FbVal) :
    Nat → Nat → List Nat → Except PyErr (FbVal × Nat × List Nat)
  | 0, attempts, sleeps => .ok (.arr [], attempts, sleeps)
  | fuel + 1, attempts, sleeps =>
      if pyIn "error" (outcomes attempts) then
        match conn_error_code (outcomes attempts) with
        | .error e => .error e
        | .ok code =>
            match code with
            | .num n =>
                if n = 4 then reqLoop outcomes fuel (attempts + 1) (sleeps ++ [wait])
                else .ok (.arr [], attempts + 1, sleeps)
            | _ => .ok (.arr [], attempts + 1, sleeps)
      else .ok (outcomes attempts, attempts + 1, sleeps)

/-- `rate_limit_requests` applied to a call whose `k`-th attempt returns
`outcomes k`. -/
def rate_limit_requests_run (outcomes : Nat → FbVal) :
    Except PyErr (FbVal × Nat × List Nat) :=
  reqLoop outcomes (max_tries + 1) 0 []

/-- The value a `rate_limit_requests`-wrapped call hands back to its caller
(the attempt/sleep bookkeeping dropped). -/
def rate_limit_requests_call (outcomes : Nat → FbVal) : Except PyErr FbVal :=
  match rate_limit_requests_run outcomes with
  | .error e => .error e
  | .ok (r, _, _) => .ok r

/-- `get_next_connection` (lines 664-673): reads
`connection["paging"]["next"]` (errors propagate through the wrapper) and
issues `requests.get(url).json()` through `rate_limit_requests`; the remote
is deterministic per URL, so every retry sees `remote url`. -/
def get_next_connection (remote : String → FbVal) (connection : FbVal) :
    Except PyErr FbVal := do
  let paging ← getItem connection "paging"
  let next ← getItem paging "next"
  match next with
  | .str url => rate_limit_requests_call (fun _ => remote url)
  | _ => .error .typeError

/-! ## profiles_posts (lines 216-324) -/

/-- The nested `paginate_elements` of `profiles_posts` (lines 257-282).
Loop condition: `len(elements) < n and
pd.to_datetime(connection_date(elements[-1])) > since_tz` with Python
short-circuiting (`elements[-1]` on an empty list raises `IndexError`);
`except KeyError` around `get_next_connection` catches the missing
`paging.next`; a connection without usable data ends the loop with the
partial `elements`. -/
def paginate_elements_pp (remote : String → FbVal) (n : Nat) (since_tz : Int) :
    Nat → FbVal → List FbVal → Except PyErr (List FbVal)
  | 0, _, _ => .error .nonTermination
  | fuel + 1, connection, elements =>
      if elements.length < n then
        match elements.getLast? with
        | none => .error .indexError
        | some lastEl =>
            match getItem lastEl "created_time" with
            | .error e => .error e
            | .ok v =>
                match pd_to_datetime v with
                | .num t =>
                    if since_tz < t then
                      match get_next_connection remote connection with
                      | .error .keyError => .ok elements
                      | .error e => .error e
                      | .ok connection' =>
                          if returns_data connection' then
                            match asData connection' with
                            | .error e => .error e
                            | .ok l =>
                                paginate_elements_pp remote n since_tz fuel
                                  connection' (elements ++ l)
                          else .ok elements
                    else .ok elements
                | _ => .error .typeError
      else .ok elements

/-- The `for i in ids` loop of `profiles_posts` (lines 288-301): per id,
the initial call, the first `extend`, pagination and `transform_posts`,
accumulating into `posts` (here `acc`). -/
def profiles_posts_collect (initCall remote : String → FbVal) (fuel : Nat)
    (since_tz : Int) (n : Nat) : List String → List FbVal → Except PyErr (List FbVal)
  | [], acc => .ok acc
  | i :: rest, acc => do
      let connection := initCall i
      if returns_data connection then
        let data ← asData connection
        let elements ← paginate_elements_pp remote n since_tz fuel connection data
        let t ← transform_posts elements (.str i)
        profiles_posts_collect initCall remote fuel since_tz n rest (acc ++ t)
      else
        profiles_posts_collect initCall remote fuel since_tz n rest acc

/-- `profiles_posts` (lines 216-324) on its core path (`insights`,
`comments`, `info`, `path` at their defaults): collect per id, then the
final time-range pass.  `since`/`until` are the window bounds (timezone
canonicalisation is the identity in the integer-timestamp model). -/
def profiles_posts_run (initCall remote : String → FbVal) (fuel : Nat)
    (since untilT : Int) (n : Nat) (ids : List String) : Except PyErr (List FbVal) :=
  match profiles_posts_collect initCall remote fuel since n ids [] with
  | .error e => .error e
  | .ok posts => .ok (time_filter since untilT posts)

/-! ## posts (lines 170-214) -/

/-- The `for i in ids` loop of `posts` (lines 195-199): `get_post` never
returns `None` (the governor returns `[]` on failure), so the
`element is not None` guard always passes. -/
def posts_go (get_post : String → Bool → FbVal) (insights : Bool) :
    List String → List FbVal → Except PyErr (List FbVal)
  | [], acc => .ok acc
  | i :: rest, acc => do
      let element := get_post i insights
      let t ← transform_posts [element] (.str i)
      posts_go get_post insights rest (acc ++ t)

/-- `posts` (lines 170-214): the unconditional `return posts` at line 201
hands the transformed list back before the dataframe construction, so the
statements of lines 202-214 (dataframe, `add_info`, `add_comments`,
`save_df`) are unreachable on this path and do not appear here. -/
def posts (get_post : String → Bool → FbVal) (ids : List String)
    (insights comments info : Bool) (path : Option String) :
    Except PyErr (List FbVal) :=
  posts_go get_post insights ids []

/-! ## posts_comments (lines 695-746) -/

/-- The nested `paginate_elements` of `posts_comments` (lines 712-732).
Unlike its `profiles_posts` twin it has no trailing `return`: when the
`while len(elements) < n` condition fails the function falls off the end
and returns `None`.  The boolean records whether a `return elements`
statement produced the result (`true`) or the loop fell through (`false`,
i.e. Python `None`). -/
def paginate_elements_pc (remote : String → FbVal) (n : Nat) :
    Nat → FbVal → List FbVal → Except PyErr (List FbVal × Bool)
  | 0, _, _ => .error .nonTermination
  | fuel + 1, connection, elements =>
      if elements.length < n then
        match get_next_connection remote connection with
        | .error .keyError => .ok (elements, true)
        | .error e => .error e
        | .ok connection' =>
            if returns_data connection' then
              match asData connection' with
              | .error e => .error e
              | .ok l => paginate_elements_pc remote n fuel connection' (elements ++ l)
            else .ok (elements, true)
      else .ok (elements, false)

/-- `posts_comments` (lines 695-746).  The nested closure appends pages to
the same `elements` list it returns, and the caller then runs
`elements.extend(paginate_elements(connection))` on that very list, so a
proper return doubles the accumulated list (`elems ++ elems`), while the
fall-through `None` return makes `list.extend(None)` raise `TypeError`. -/
def posts_comments_run (initCall remote : String → FbVal) (fuel n : Nat) :
    List String → List FbVal → Except PyErr (List FbVal)
  | [], acc => .ok acc
  | i :: rest, acc => do
      let connection := initCall i
      if returns_data connection then
        let data ← asData connection
        match paginate_elements_pc remote n fuel connection data with
        | .error e => .error e
        | .ok (elems, true) => do
            let t ← transform_comments (elems ++ elems) (.str i)
            posts_comments_run initCall remote fuel n rest (acc ++ t)
        | .ok (_, false) => .error .typeError
      else
        posts_comments_run initCall remote fuel n rest acc

/-! ## Retry governor lemmas -/

theorem ok_bind {α β : Type} (a : α) (f : α → Except PyErr β) :
    (Except.ok a >>= f) = f a := rfl

theorem error_bind {α β : Type} (e : PyErr) (f : α → Except PyErr β) :
    ((Except.error e : Except PyErr α) >>= f) = Except.error e := rfl

theorem sdkLoop_all_throttled (outcomes : Nat → SdkOutcome)
    (h : ∀ k, outcomes k = .graphError 4) :
    ∀ (fuel attempts : Nat) (sleeps : List Nat),
      sdkLoop outcomes fuel attempts sleeps =
        (.arr [], attempts + fuel, sleeps ++ List.replicate fuel wait) := by
  intro fuel
  induction fuel with
  | zero => intro attempts sleeps; simp [sdkLoop]
  | succ fuel ih =>
      intro attempts sleeps
      rw [sdkLoop, h attempts]
      simp only [reduceIte, ih (attempts + 1) (sleeps ++ [wait])]
      rw [Prod.mk.injEq, Prod.mk.injEq]
      refine ⟨rfl, by omega, ?_⟩
      rw [List.append_assoc, List.replicate_succ]
      rfl

theorem sdkLoop_fatal (outcomes : Nat → SdkOutcome) (fuel attempts : Nat)
    (sleeps : List Nat) (c : Int) (h : outcomes attempts = .graphError c)
    (hc : c ≠ 4) :
    sdkLoop outcomes (fuel + 1) attempts sleeps = (.arr [], attempts + 1, sleeps) := by
  rw [sdkLoop, h]
  simp [hc]

theorem reqLoop_all_throttled (outcomes : Nat → FbVal)
    (h1 : ∀ k, pyIn "error" (outcomes k) = true)
    (h2 : ∀ k, conn_error_code (outcomes k) = .ok (.num 4)) :
    ∀ (fuel attempts : Nat) (sleeps : List Nat),
      reqLoop outcomes fuel attempts sleeps =
        .ok (.arr [], attempts + fuel, sleeps ++ List.replicate fuel wait) := by
  intro fuel
  induction fuel with
  | zero => intro attempts sleeps; simp [reqLoop]
  | succ fuel ih =>
      intro attempts sleeps
      rw [reqLoop, h1 attempts, h2 attempts]
      simp only [reduceIte, ih (attempts + 1) (sleeps ++ [wait])]
      rw [Except.ok.injEq, Prod.mk.injEq, Prod.mk.injEq]
      refine ⟨rfl, by omega, ?_⟩
      rw [List.append_assoc, List.replicate_succ]
      rfl

theorem reqLoop_fatal (outcomes : Nat → FbVal) (fuel attempts : Nat)
    (sleeps : List Nat) (c : Int)
    (h1 : pyIn "error" (outcomes attempts) = true)
    (h2 : conn_error_code (outcomes attempts) = .ok (.num c)) (hc : c ≠ 4) :
    reqLoop outcomes (fuel + 1) attempts sleeps = .ok (.arr [], attempts + 1, sleeps) := by
  rw [reqLoop, h1, h2]
  simp [hc]

/-- A `rate_limit_requests`-wrapped call over a deterministic remote hands
back either the remote's payload or the empty give-up marker. -/
theorem reqLoop_const_ok (resp : FbVal) :
    ∀ (fuel attempts : Nat) (sleeps : List Nat) (c : FbVal) (x : Nat) (y : List Nat),
      reqLoop (fun _ => resp) fuel attempts sleeps = .ok (c, x, y) →
      c = resp ∨ c = .arr [] := by
  intro fuel
  induction fuel with
  | zero =>
      intro attempts sleeps c x y h
      rw [reqLoop] at h
      injection h with h
      rw [Prod.mk.injEq] at h
      exact Or.inr h.1.symm
  | succ fuel ih =>
      intro attempts sleeps c x y h
      rw [reqLoop] at h
      split at h
      · split at h
        · cases h
        · split at h
          · split at h
            · exact ih (attempts + 1) (sleeps ++ [wait]) c x y h
            · injection h with h
              rw [Prod.mk.injEq] at h
              exact Or.inr h.1.symm
          · injection h with h
            rw [Prod.mk.injEq] at h
            exact Or.inr h.1.symm
      · injection h with h
        rw [Prod.mk.injEq] at h
        exact Or.inl h.1.symm

theorem rate_limit_requests_call_const (resp c : FbVal)
    (h : rate_limit_requests_call (fun _ => resp) = .ok c) :
    c = resp ∨ c = .arr [] := by
  rw [rate_limit_requests_call] at h
  revert h
  match hrun : rate_limit_requests_run (fun _ => resp) with
  | .error e => intro h; cases h
  | .ok (r, x, y) =>
      intro h
      injection h with h
      subst h
      exact reqLoop_const_ok resp (max_tries + 1) 0 [] r x y hrun

/-- C1 counterexample input: every attempt raises the rate-limit error. -/
def allThrottled : Nat → SdkOutcome := fun _ => .graphError 4

/-- C1 is refuted at the all-throttled call: `rate_limit_sdk` performs 9
attempts there, which exceeds the `max_tries = 8` bound the claim states. -/
theorem c1_retry_budget_counterexample :
    (rate_limit_sdk_run allThrottled).2.1 = 9 ∧ ¬ (9 ≤ max_tries) :=
  ⟨rfl, by decide⟩

/-- C1 (amended): for every wrapped call whose every attempt is Throttled
(error code 4), both retry governors sleep exactly `wait = 900` after each
throttled attempt (in particular between consecutive attempts), perform
`max_tries + 1 = 9` attempts in total (the loop admits
`tries = 0 .. max_tries` inclusive), and return an empty result upon
exhaustion rather than raising an exception. -/
theorem c1_retry_budget (outS : Nat → SdkOutcome) (outR : Nat → FbVal)
    (hS : ∀ k, outS k = .graphError 4)
    (hR1 : ∀ k, pyIn "error" (outR k) = true)
    (hR2 : ∀ k, conn_error_code (outR k) = .ok (.num 4)) :
    rate_limit_sdk_run outS = (.arr [], 9, List.replicate 9 wait) ∧
      rate_limit_requests_run outR = .ok (.arr [], 9, List.replicate 9 wait) := by
  constructor
  · rw [rate_limit_sdk_run, sdkLoop_all_throttled outS hS]
    rfl
  · rw [rate_limit_requests_run, reqLoop_all_throttled outR hR1 hR2]
    rfl

/-- C1 witness: the amended statement at the all-throttled call. -/
theorem c1_retry_budget_witness :
    rate_limit_sdk_run allThrottled = (.arr [], 9, List.replicate 9 wait) ∧
      rate_limit_requests_run (fun _ => .obj [("error", .obj [("code", .num 4)])]) =
        .ok (.arr [], 9, List.replicate 9 wait) :=
  c1_retry_budget allThrottled (fun _ => .obj [("error", .obj [("code", .num 4)])])
    (fun _ => rfl) (fun _ => rfl) (fun _ => rfl)

/-- C8: for every wrapped call whose first attempt is Fatal (any error
other than rate-limit code 4), both retry governors return the empty
result immediately: exactly one attempt is performed and no sleep is
issued. -/
theorem c8_fatal_fail_fast (outS : Nat → SdkOutcome) (outR : Nat → FbVal)
    (cS cR : Int) (hS : outS 0 = .graphError cS) (hcS : cS ≠ 4)
    (hR1 : pyIn "error" (outR 0) = true)
    (hR2 : conn_error_code (outR 0) = .ok (.num cR)) (hcR : cR ≠ 4) :
    rate_limit_sdk_run outS = (.arr [], 1, []) ∧
      rate_limit_requests_run outR = .ok (.arr [], 1, []) := by
  constructor
  · exact sdkLoop_fatal outS max_tries 0 [] cS hS hcS
  · exact reqLoop_fatal outR max_tries 0 [] cR hR1 hR2 hcR

/-- C8 witness: a code-100 error on the first attempt. -/
theorem c8_fatal_fail_fast_witness :
    rate_limit_sdk_run (fun _ => .graphError 100) = (.arr [], 1, []) ∧
      rate_limit_requests_run (fun _ => .obj [("error", .obj [("code", .num 100)])]) =
        .ok (.arr [], 1, []) :=
  c8_fatal_fail_fast (fun _ => .graphError 100)
    (fun _ => .obj [("error", .obj [("code", .num 100)])]) 100 100
    rfl (by decide) rfl rfl (by decide)

/-! ## Concrete scenarios -/

/-- A comment record. -/
def c1c : FbVal := .obj [("id", .str "c1"), ("like_count", .num 2)]

/-- A second comment record. -/
def c2c : FbVal := .obj [("id", .str "c2"), ("like_count", .num 3)]

/-- A first comments page carrying `c1c` and a next-page cursor. -/
def pcInit : String → FbVal :=
  fun _ => .obj [("data", .arr [c1c]), ("paging", .obj [("next", .str "u1")])]

/-- A remote whose next page carries `c2c` and no further cursor. -/
def pcRemote : String → FbVal := fun _ => .obj [("data", .arr [c2c])]

/-- C4: the claim's safety property fails on `posts_comments`.  Failing
input: one post id whose first comments page holds one comment, with the
count cap `n = 1`: the accumulated count already meets the cap, the inner
`while` loop of `paginate_elements` exits without a `return`, the closure
yields `None`, and `elements.extend(None)` raises `TypeError`, aborting the
whole multi-id run. -/
theorem c4_posts_comments_fault :
    posts_comments_run (fun _ => .obj [("data", .arr [c1c])]) (fun _ => .arr [])
      1 1 ["p"] [] = .error .typeError := rfl

/-- C5 is refuted: in the two-page run terminating via the no-next-page
branch, the collected comment `c1` appears twice in the returned result,
not exactly once. -/
theorem c5_once_counterexample :
    (posts_comments_run pcInit pcRemote 2 10 ["p"] []).map
        (fun l => (l.filter (fun c =>
          match getItem c "id" with
          | .ok (.str s) => s = "c1"
          | _ => false)).length) = .ok 2 ∧ (2 : Nat) ≠ 1 :=
  ⟨rfl, by decide⟩

/-- C5 (amended): in `posts_comments`, whenever pagination terminates via
the no-next-page or no-data branch (a proper `return elements`), every
accumulated comment — including the whole first page — appears exactly
twice: the id's contribution is the transform of `elems ++ elems`, because
the inner `paginate_elements` appends pages to the same `elements` list it
returns and the caller then extends `elements` with that returned list. -/
theorem c5_duplication (initCall remote : String → FbVal) (fuel n : Nat)
    (i : String) (d e : List FbVal)
    (hd : returns_data (initCall i) = true)
    (ha : asData (initCall i) = .ok d)
    (hp : paginate_elements_pc remote n fuel (initCall i) d = .ok (e, true)) :
    posts_comments_run initCall remote fuel n [i] [] =
      transform_comments (e ++ e) (.str i) := by
  rw [posts_comments_run]
  simp only [hd, reduceIte, ha, hp, Bind.bind, Except.bind]
  cases ht : transform_comments (e ++ e) (.str i) with
  | error er => rfl
  | ok t => simp [posts_comments_run, ht]

/-- C5 witness: the amended statement at the concrete two-page run. -/
theorem c5_duplication_witness :
    posts_comments_run pcInit pcRemote 2 10 ["p"] [] =
      transform_comments ([c1c, c2c] ++ [c1c, c2c]) (.str "p") :=
  c5_duplication pcInit pcRemote 2 10 "p" [c1c] [c1c, c2c] rfl rfl rfl

/-- C6: in the simple `posts()` path the unconditional `return posts` at
line 201 precedes dataframe construction and enrichment, so the returned
value is the list of transformed posts and is independent of the
`comments`, `info` and `path` arguments (the enrichment and save steps of
lines 202-214 are unreachable dead code on this path). -/
theorem c6_posts_flags_independent (get_post : String → Bool → FbVal)
    (ids : List String) (insights ca ia cb ib : Bool) (pa pb : Option String) :
    posts get_post ids insights ca ia pa = posts get_post ids insights cb ib pb := rfl

/-- The single-object scenario record of C7. -/
def scenarioRecord : FbVal := .obj [
  ("id", .str "42"),
  ("created_time", .str "2020-01-01T00:00:00+0000"),
  ("likes", .obj [("summary", .obj [("total_count", .num 3)])])]

/-- A named field of the normalized row a record transforms into. -/
def rowField (i post : FbVal) (k : String) : Except PyErr FbVal :=
  (post_with_additional_collumns i post).bind (fun row => getItem row k)

/-- C7 is refuted on its `interactions` part: the normalized row of the
scenario record has `interactions = 0`, not `3` — `interactions` sums
`comments_count`, `reactions_count` and `shares_count` (lines 535-542) and
excludes `likes_count`, and the record carries none of the three. -/
theorem c7_scenario_counterexample :
    rowField (.str "42") scenarioRecord "interactions" = .ok (.num 0) ∧
      ¬ rowField (.str "42") scenarioRecord "interactions" = .ok (.num 3) := by
  refine ⟨rfl, fun h => ?_⟩
  rw [show rowField (.str "42") scenarioRecord "interactions" = .ok (.num 0) from rfl] at h
  injection h with h
  injection h with h
  exact absurd h (by decide)

/-- C7 (amended): for the single-object fetch of entity id "42" returning
the scenario record, the normalized row has `likes_count = 3`,
`post_link = "https://facebook.com/42"`, and `interactions = 0` (likes are
not part of the interactions sum). -/
theorem c7_scenario :
    rowField (.str "42") scenarioRecord "likes_count" = .ok (.num 3) ∧
      rowField (.str "42") scenarioRecord "post_link" =
        .ok (.str "https://facebook.com/42") ∧
      rowField (.str "42") scenarioRecord "interactions" = .ok (.num 0) :=
  ⟨rfl, rfl, rfl⟩

/-! ## profiles_posts: empty first page (C9) -/

/-- C9: for every entity id whose first call yields an error Connection or
a Connection with empty data (`returns_data` false), collection for that id
terminates with zero rows and no fault: the result is `.ok []` for every
remote and every fuel, so no next-page fetch can influence it and the
last-element timestamp comparison (which would raise `IndexError` on the
empty accumulator) is never attempted. -/
theorem c9_empty_first_page (initCall remote : String → FbVal) (fuel : Nat)
    (since untilT : Int) (n : Nat) (i : String)
    (h : returns_data (initCall i) = false) :
    profiles_posts_run initCall remote fuel since untilT n [i] = .ok [] := by
  rw [profiles_posts_run]
  simp only [profiles_posts_collect, h, Bool.false_eq_true, reduceIte]
  rfl

/-- C9 witness: a first page with empty data. -/
theorem c9_empty_first_page_witness :
    profiles_posts_run (fun _ => .obj [("data", .arr [])]) (fun _ => .arr [])
      0 0 0 0 ["i"] = .ok [] :=
  c9_empty_first_page (fun _ => .obj [("data", .arr [])]) (fun _ => .arr [])
    0 0 0 0 "i" rfl

/-! ## profiles_posts: time window (C3) -/

theorem time_filter_bounds (since untilT : Int) (rows : List FbVal) (r : FbVal)
    (t : Int) (hr : r ∈ time_filter since untilT rows) (ht : rowTime r = some t) :
    since ≤ t ∧ t ≤ untilT := by
  rw [time_filter] at hr
  split at hr
  · split at hr
    · rw [List.mem_filter, ht] at hr
      have h2 := hr.2
      simp only [Bool.and_eq_true, decide_eq_true_eq] at h2
      exact h2
    · rename_i hany
      exfalso
      have hall : ∀ x ∈ rows, ¬ (rowTime x).isSome = true := by
        simpa [List.any_eq_true] using hany
      have hx := hall r hr
      rw [ht] at hx
      exact hx rfl
  · rename_i hlen
    exfalso
    cases rows with
    | nil => cases hr
    | cons a l => exact hlen (by simp)

/-- C3: for every time-bounded collection, every row of the final returned
output carries a timestamp inside `[since, until]`, both boundaries
inclusive; rows whose timestamp falls outside the window are dropped by the
final pass even if they were fetched. -/
theorem c3_time_window (initCall remote : String → FbVal) (fuel : Nat)
    (since untilT : Int) (n : Nat) (ids : List String) (out : List FbVal)
    (r : FbVal) (t : Int)
    (h : profiles_posts_run initCall remote fuel since untilT n ids = .ok out)
    (hr : r ∈ out) (ht : rowTime r = some t) :
    since ≤ t ∧ t ≤ untilT := by
  rw [profiles_posts_run] at h
  revert h
  match hc : profiles_posts_collect initCall remote fuel since n ids [] with
  | .error e => intro h; cases h
  | .ok posts =>
      intro h
      injection h with h
      subst h
      exact time_filter_bounds since untilT posts r t hr ht

/-- A raw post sitting exactly on the `since` boundary. -/
def pT : FbVal := .obj [("id", .str "x"), ("created_time", .num 5)]

/-- The normalized row `pT` transforms into under api call id "i". -/
def rowT : FbVal := .obj [("id", .str "x"), ("created_time", .num 5),
  ("comments_count", .null), ("from_id", .null), ("from_name", .null),
  ("likes_count", .null), ("reactions_count", .null), ("shares_count", .num 0),
  ("post_link", .str "https://facebook.com/x"), ("interactions", .num 0),
  ("api_call_id", .str "i")]

/-- C3 witness: a boundary row (`created_time = since = 5`) is kept, and
the theorem yields its bounds. -/
theorem c3_time_window_witness :
    profiles_posts_run (fun _ => .obj [("data", .arr [pT])]) (fun _ => .arr [])
        1 5 10 1 ["i"] = .ok [rowT] ∧ ((5 : Int) ≤ 5 ∧ (5 : Int) ≤ 10) :=
  ⟨rfl,
    c3_time_window (fun _ => .obj [("data", .arr [pT])]) (fun _ => .arr [])
      1 5 10 1 ["i"] [rowT] rowT 5 rfl (List.Mem.head _) rfl⟩

/-! ## Count cap (C2) -/

/-- Two raw posts inside the time window. -/
def pC2a : FbVal := .obj [("id", .str "a"), ("created_time", .num 5)]

/-- Second raw post of the C2 scenario. -/
def pC2b : FbVal := .obj [("id", .str "b"), ("created_time", .num 5)]

/-- A first connection whose data page holds both posts. -/
def connAB : FbVal := .obj [("data", .arr [pC2a, pC2b])]

/-- C2 is refuted: with cap `n = 1` and a first page of two posts,
`profiles_posts` returns 2 rows — the cap is only consulted before a
next-page fetch and never truncates the accumulated elements. -/
theorem c2_count_cap_counterexample :
    (profiles_posts_run (fun _ => connAB) (fun _ => .arr []) 1 0 10 1 ["i"]).map
      List.length = .ok 2 ∧ ¬ (2 ≤ 1) :=
  ⟨rfl, by decide⟩

theorem asData_length (c : FbVal) (l : List FbVal) (h : asData c = .ok l) :
    l.length = dataLen c := by
  rw [asData] at h
  rw [dataLen, connection_data] at *
  split at h
  · rename_i l' heq
    rw [heq]
    injection h with h
    rw [h]
  · cases h
  · cases h

/-- Objects delivered by `get_next_connection` over a deterministic remote:
a remote page, or the governor's empty give-up marker. -/
theorem get_next_connection_ok (remote : String → FbVal) (conn c : FbVal)
    (h : get_next_connection remote conn = .ok c) :
    c = .arr [] ∨ ∃ url, c = remote url := by
  rw [get_next_connection] at h
  revert h
  match h1 : getItem conn "paging" with
  | .error e => intro h; rw [error_bind] at h; cases h
  | .ok paging =>
      rw [ok_bind]
      match h2 : getItem paging "next" with
      | .error e => intro h; rw [error_bind] at h; cases h
      | .ok next =>
          rw [ok_bind]
          match next with
          | .str url =>
              intro h
              rcases rate_limit_requests_call_const (remote url) c h with h3 | h3
              · exact Or.inr ⟨url, h3⟩
              · exact Or.inl h3
          | .null | .num _ | .arr _ | .obj _ => intro h; cases h

/-- Length bound for the `profiles_posts` pagination loop: pages are only
fetched while the accumulated count is below `n`, and each fetched page
adds at most `p` elements, so an accumulated list can never grow beyond
`max` of its entry length and `n - 1 + p`. -/
theorem paginate_pp_length (remote : String → FbVal) (n : Nat) (since_tz : Int)
    (p : Nat) (hp : ∀ url, dataLen (remote url) ≤ p) :
    ∀ (fuel : Nat) (conn : FbVal) (elements res : List FbVal),
      paginate_elements_pp remote n since_tz fuel conn elements = .ok res →
      res.length ≤ max elements.length (n - 1 + p) := by
  intro fuel
  induction fuel with
  | zero => intro conn elements res h; cases h
  | succ fuel ih =>
      intro conn elements res h
      rw [paginate_elements_pp] at h
      split at h
      · rename_i hlt
        split at h
        · cases h
        · split at h
          · cases h
          · split at h
            · rename_i t
              split at h
              · split at h
                · injection h with h
                  subst h
                  exact Nat.le_max_left _ _
                · cases h
                · rename_i conn' hnext
                  split at h
                  · rename_i hret
                    split at h
                    · cases h
                    · rename_i l hl
                      have hres := ih conn' (elements ++ l) res h
                      have hlen : l.length ≤ p := by
                        rcases get_next_connection_ok remote conn conn' hnext with
                          hc | ⟨url, hc⟩
                        · subst hc
                          cases hret
                        · rw [asData_length conn' l hl, hc]
                          exact hp url
                      rw [List.length_append] at hres
                      omega
                  · injection h with h
                    subst h
                    exact Nat.le_max_left _ _
              · injection h with h
                subst h
                exact Nat.le_max_left _ _
            · cases h
      · injection h with h
        subst h
        exact Nat.le_max_left _ _

theorem transform_posts_length (i : FbVal) :
    ∀ (posts out : List FbVal), transform_posts posts i = .ok out →
      out.length = posts.length := by
  intro posts
  induction posts with
  | nil =>
      intro out h
      rw [transform_posts] at h
      injection h with h
      subst h
      rfl
  | cons a rest ih =>
      intro out h
      rw [transform_posts] at h
      revert h
      match h1 : post_with_additional_collumns i a with
      | .error e => intro h; rw [error_bind] at h; cases h
      | .ok r =>
          rw [ok_bind]
          match h2 : transform_posts rest i with
          | .error e => intro h; rw [error_bind] at h; cases h
          | .ok rs =>
              rw [ok_bind]
              intro h
              injection h with h
              subst h
              simp [ih rs h2]

theorem collect_length (initCall remote : String → FbVal) (fuel : Nat)
    (since_tz : Int) (n p : Nat)
    (hp : ∀ url, dataLen (remote url) ≤ p)
    (hi : ∀ i, dataLen (initCall i) ≤ p) :
    ∀ (ids : List String) (acc out : List FbVal),
      profiles_posts_collect initCall remote fuel since_tz n ids acc = .ok out →
      out.length ≤ acc.length + ids.length * (n + p) := by
  intro ids
  induction ids with
  | nil =>
      intro acc out h
      rw [profiles_posts_collect] at h
      injection h with h
      subst h
      simp
  | cons i rest ih =>
      intro acc out h
      rw [profiles_posts_collect] at h
      split at h
      · revert h
        match h1 : asData (initCall i) with
        | .error e => intro h; rw [error_bind] at h; cases h
        | .ok d =>
            rw [ok_bind]
            match h2 : paginate_elements_pp remote n since_tz fuel (initCall i) d with
            | .error e => intro h; rw [error_bind] at h; cases h
            | .ok elements =>
                rw [ok_bind]
                match h3 : transform_posts elements (.str i) with
                | .error e => intro h; rw [error_bind] at h; cases h
                | .ok t =>
                    rw [ok_bind]
                    intro h
                    have hrec := ih (acc ++ t) out h
                    have hd : d.length ≤ p := by
                      rw [asData_length (initCall i) d h1]
                      exact hi i
                    have hel := paginate_pp_length remote n since_tz p hp fuel
                      (initCall i) d elements h2
                    have ht := transform_posts_length (.str i) elements t h3
                    rw [List.length_append] at hrec
                    have hmul : (rest.length + 1) * (n + p) =
                        rest.length * (n + p) + (n + p) := by
                      rw [Nat.succ_mul]
                    rw [List.length_cons, hmul]
                    omega
      · have hrec := ih acc out h
        rw [List.length_cons]
        have hmul : (rest.length + 1) * (n + p) =
            rest.length * (n + p) + (n + p) := by
          rw [Nat.succ_mul]
        rw [hmul]
        omega

theorem time_filter_length (since untilT : Int) (rows : List FbVal) :
    (time_filter since untilT rows).length ≤ rows.length := by
  rw [time_filter]
  split
  · split
    · exact List.length_filter_le _ _
    · exact Nat.le_refl _
  · exact Nat.le_refl _

/-- C2 (amended): the count cap does not bound the returned row count by
`n`; it only stops further page fetches once the accumulated count reaches
`n`, and whole pages are appended, so with every page (initial or fetched)
holding at most `p` records the returned row count is bounded by
`ids.length * (n + p)` — per collected id at most `n + p` rows, not `n`
(`posts_comments` additionally duplicates its accumulated elements, see
C5). -/
theorem c2_count_cap (initCall remote : String → FbVal) (fuel : Nat)
    (since untilT : Int) (n p : Nat) (ids : List String) (out : List FbVal)
    (hp : ∀ url, dataLen (remote url) ≤ p)
    (hi : ∀ i, dataLen (initCall i) ≤ p)
    (h : profiles_posts_run initCall remote fuel since untilT n ids = .ok out) :
    out.length ≤ ids.length * (n + p) := by
  rw [profiles_posts_run] at h
  revert h
  match hc : profiles_posts_collect initCall remote fuel since n ids [] with
  | .error e => intro h; cases h
  | .ok posts =>
      intro h
      injection h with h
      subst h
      have h1 := collect_length initCall remote fuel since n p hp hi ids [] posts hc
      have h2 := time_filter_length since untilT posts
      simp only [List.length_nil, Nat.zero_add] at h1
      omega

/-- C2 witness: the amended bound at the counterexample scenario
(2 rows ≤ 1 · (1 + 2)). -/
theorem c2_count_cap_witness :
    ∃ out, profiles_posts_run (fun _ => connAB) (fun _ => .arr []) 1 0 10 1 ["i"]
        = .ok out ∧ out.length ≤ ["i"].length * (1 + 2) := by
  refine ⟨_, rfl, ?_⟩
  exact c2_count_cap (fun _ => connAB) (fun _ => .arr []) 1 0 10 1 2 ["i"] _
    (fun _ => by show dataLen (FbVal.arr []) ≤ 2; decide)
    (fun _ => by show dataLen connAB ≤ 2; decide) rfl

/-! ## Record normalizer: missing-field tolerance (C10) -/

theorem catchKey_key (fb : Except PyErr FbVal) : catchKey (.error .keyError) fb = fb := rfl

theorem catchKey_ok (v : FbVal) (fb : Except PyErr FbVal) : catchKey (.ok v) fb = .ok v := rfl

theorem setItem_obj (f : List (String × FbVal)) (k : String) (v : FbVal) :
    setItem (.obj f) k v = .ok (.obj (setK f k v)) := rfl

theorem lookupK_setK_same (f : List (String × FbVal)) (k : String) (v : FbVal) :
    lookupK (setK f k v) k = some v := by
  induction f with
  | nil => simp [setK, lookupK]
  | cons kv rest ih =>
      obtain ⟨k0, v0⟩ := kv
      rw [setK]
      by_cases hk : k0 = k
      · rw [if_pos hk, lookupK, if_pos rfl]
      · rw [if_neg hk, lookupK, if_neg hk]
        exact ih

theorem lookupK_setK_ne (f : List (String × FbVal)) (k k' : String) (v : FbVal)
    (h : k' ≠ k) : lookupK (setK f k' v) k = lookupK f k := by
  induction f with
  | nil => simp [setK, lookupK, h]
  | cons kv rest ih =>
      obtain ⟨k0, v0⟩ := kv
      rw [setK]
      by_cases hk : k0 = k'
      · rw [if_pos hk, lookupK, if_neg h, lookupK]
        subst hk
        rw [if_neg h]
      · rw [if_neg hk, lookupK, lookupK]
        by_cases h0 : k0 = k
        · rw [if_pos h0, if_pos h0]
        · rw [if_neg h0, if_neg h0]
          exact ih

theorem getItem_set_same (f : List (String × FbVal)) (k : String) (v : FbVal) :
    getItem (.obj (setK f k v)) k = .ok v := by
  simp [getItem, lookupK_setK_same]

theorem getItem_set_ne (f : List (String × FbVal)) (k k' : String) (v : FbVal)
    (h : k' ≠ k) : getItem (.obj (setK f k' v)) k = getItem (.obj f) k := by
  simp [getItem, lookupK_setK_ne f k k' v h]

/-- C10: missing-field tolerance of the likes fallback chain (lines
514-521).  For every raw record (any dict whose other derivation steps
succeed): if the `likes.summary.total_count` path is absent (`KeyError`)
but a flat `like_count` field is present, the normalized row's
`likes_count` equals the flat value; if both are absent, `likes_count` is
the missing sentinel `None` — and in both cases normalization returns a
row rather than raising. -/
theorem c10_likes_fallback :
    (∀ (i : FbVal) (fields : List (String × FbVal))
        (cc fi fn ct rc sc pid w : FbVal) (m : Int),
      catchKey (dictGet3 (.obj fields) "comments" "summary" "total_count")
          (.ok .null) = .ok cc →
      catchKey (dictGet2 (.obj fields) "from" "id") (.ok .null) = .ok fi →
      catchKey (dictGet2 (.obj fields) "from" "name") (.ok .null) = .ok fn →
      getItem (.obj fields) "created_time" = .ok ct →
      dictGet3 (.obj fields) "likes" "summary" "total_count" = .error .keyError →
      getItem (.obj fields) "like_count" = .ok w →
      catchKey (dictGet3 (.obj fields) "reactions" "summary" "total_count")
          (.ok .null) = .ok rc →
      sharesGet (.obj fields) = .ok sc →
      getItem (.obj fields) "id" = .ok pid →
      addCount (addCount (addCount (.ok 0) cc) rc) sc = .ok m →
      ∃ row, post_with_additional_collumns i (.obj fields) = .ok row ∧
        getItem row "likes_count" = .ok w) ∧
    (∀ (i : FbVal) (fields : List (String × FbVal))
        (cc fi fn ct rc sc pid : FbVal) (m : Int),
      catchKey (dictGet3 (.obj fields) "comments" "summary" "total_count")
          (.ok .null) = .ok cc →
      catchKey (dictGet2 (.obj fields) "from" "id") (.ok .null) = .ok fi →
      catchKey (dictGet2 (.obj fields) "from" "name") (.ok .null) = .ok fn →
      getItem (.obj fields) "created_time" = .ok ct →
      dictGet3 (.obj fields) "likes" "summary" "total_count" = .error .keyError →
      getItem (.obj fields) "like_count" = .error .keyError →
      catchKey (dictGet3 (.obj fields) "reactions" "summary" "total_count")
          (.ok .null) = .ok rc →
      sharesGet (.obj fields) = .ok sc →
      getItem (.obj fields) "id" = .ok pid →
      addCount (addCount (addCount (.ok 0) cc) rc) sc = .ok m →
      ∃ row, post_with_additional_collumns i (.obj fields) = .ok row ∧
        getItem row "likes_count" = .ok .null) := by
  constructor
  · intro i fields cc fi fn ct rc sc pid w m
    intro hcc hfi hfn hct hlikes hflat hrc hsh hid hsum
    rw [show post_with_additional_collumns i (.obj fields)
        = post_columns_core i (.obj fields) from rfl]
    rw [post_columns_core]
    simp only [hcc, hfi, hfn, hct, hlikes, catchKey_key, hflat, catchKey_ok,
      hrc, hsh, hid, hsum, pd_to_datetime, ok_bind, setItem_obj]
    refine ⟨_, rfl, ?_⟩
    rw [getItem_set_ne _ "likes_count" "api_call_id" _ (by decide)]
    rw [getItem_set_ne _ "likes_count" "interactions" _ (by decide)]
    rw [getItem_set_ne _ "likes_count" "post_link" _ (by decide)]
    rw [getItem_set_ne _ "likes_count" "shares_count" _ (by decide)]
    rw [getItem_set_ne _ "likes_count" "reactions_count" _ (by decide)]
    rw [getItem_set_same]
  · intro i fields cc fi fn ct rc sc pid m
    intro hcc hfi hfn hct hlikes hflat hrc hsh hid hsum
    rw [show post_with_additional_collumns i (.obj fields)
        = post_columns_core i (.obj fields) from rfl]
    rw [post_columns_core]
    simp only [hcc, hfi, hfn, hct, hlikes, catchKey_key, hflat, catchKey_ok,
      hrc, hsh, hid, hsum, pd_to_datetime, ok_bind, setItem_obj]
    refine ⟨_, rfl, ?_⟩
    rw [getItem_set_ne _ "likes_count" "api_call_id" _ (by decide)]
    rw [getItem_set_ne _ "likes_count" "interactions" _ (by decide)]
    rw [getItem_set_ne _ "likes_count" "post_link" _ (by decide)]
    rw [getItem_set_ne _ "likes_count" "shares_count" _ (by decide)]
    rw [getItem_set_ne _ "likes_count" "reactions_count" _ (by decide)]
    rw [getItem_set_same]

/-- C10 witness: a record with only a flat `like_count`, and a record with
neither likes field. -/
theorem c10_likes_fallback_witness :
    (∃ row, post_with_additional_collumns (.str "w")
        (.obj [("id", .str "x"), ("created_time", .num 1), ("like_count", .num 7)])
        = .ok row ∧ getItem row "likes_count" = .ok (.num 7)) ∧
      (∃ row, post_with_additional_collumns (.str "w")
        (.obj [("id", .str "y"), ("created_time", .num 1)])
        = .ok row ∧ getItem row "likes_count" = .ok .null) :=
  ⟨c10_likes_fallback.1 (.str "w")
      [("id", .str "x"), ("created_time", .num 1), ("like_count", .num 7)]
      .null .null .null (.num 1) .null (.num 0) (.str "x") (.num 7) 0
      rfl rfl rfl rfl rfl rfl rfl rfl rfl rfl,
    c10_likes_fallback.2 (.str "w")
      [("id", .str "y"), ("created_time", .num 1)]
      .null .null .null (.num 1) .null (.num 0) (.str "y") 0
      rfl rfl rfl rfl rfl rfl rfl rfl rfl rfl⟩

end FbWrap
